import Mathlib

/-!
Shallow embedding of the request-instrumentation middleware in
`req_stats/middleware.py`: the `QueryStats` recorder, the `Metrics` bag and
`RequestLoggingMiddleware`, together with the library semantics they lean on
(Python `dict`, `sorted`, `round`, `contextlib.ExitStack` and Django's
`connection.execute_wrapper`).

Modelling conventions:
- machine floats become `ℚ`; measured times (`time.monotonic` differences) are
  oracle inputs supplied to the model;
- raising code returns `Except String _` whose error value records the Python
  exception;
- Python `dict`s become insertion-ordered association lists with unique keys
  (`dictPut` replaces in place, like `d[k] = v`);
- Python `sorted` (a stable sort) is modelled by `List.insertionSort`, which is
  stable for ties and kernel-computable.
-/

namespace ReqStats

/-- Python `round` halves round to the nearest even integer (banker's rounding). -/
def roundHalfEven (q : ℚ) : ℤ :=
  let f : ℤ := ⌊q⌋
  let frac : ℚ := q - f
  if frac < 1 / 2 then f
  else if 1 / 2 < frac then f + 1
  else if f % 2 = 0 then f else f + 1

/-- Python `round(q, ndigits)` on an exact rational. -/
def pyRound (q : ℚ) (ndigits : ℕ) : ℚ :=
  (roundHalfEven (q * (10 : ℚ) ^ ndigits) : ℚ) / (10 : ℚ) ^ ndigits

/-- Python `dict` lookup `d.get(k)`: first (unique) binding of `k`, if any. -/
def dictGet? {α : Type} : List (String × α) → String → Option α
  | [], _ => Option.none
  | (k0, v0) :: rest, k => if k0 = k then some v0 else dictGet? rest k

/-- Python `d[k] = v`: replace the binding in place if `k` is present, else append. -/
def dictPut {α : Type} : List (String × α) → String → α → List (String × α)
  | [], k, v => [(k, v)]
  | (k0, v0) :: rest, k, v =>
    if k0 = k then (k, v) :: rest else (k0, v0) :: dictPut rest k v

/-- Python `d.update(pairs)`: assign each pair in order. -/
def dictUpdate {α : Type} (d : List (String × α)) : List (String × α) → List (String × α)
  | [] => d
  | (k, v) :: rest => dictUpdate (dictPut d k v) rest

/-- Python `d[k]`: raises `KeyError` when the key is absent. -/
def lookupBang {α : Type} (d : List (String × α)) (k : String) : Except String α :=
  match dictGet? d k with
  | some v => Except.ok v
  | Option.none => Except.error ("KeyError: " ++ k)

instance {ε α : Type} [DecidableEq ε] [DecidableEq α] : DecidableEq (Except ε α) :=
  fun a b =>
    match a, b with
    | Except.ok x, Except.ok y =>
      if h : x = y then isTrue (by rw [h])
      else isFalse (fun he => h (Except.ok.inj he))
    | Except.ok _, Except.error _ => isFalse (fun he => Except.noConfusion he)
    | Except.error _, Except.ok _ => isFalse (fun he => Except.noConfusion he)
    | Except.error x, Except.error y =>
      if h : x = y then isTrue (by rw [h])
      else isFalse (fun he => h (Except.error.inj he))

/-! Metric keys (module-level constants of `middleware.py`). -/

def QUERY_COUNT : String := "db_query_count"

def QUERY_TIME : String := "db_query_time_ms"

def REQUEST_TIME : String := "duration_ms"

def ALL_QUERY_DETAILS : String := "db_query_details"

/-- The per-statement diagnostic record (`SimpleNamespace(total_number=0, stacks={})`). -/
structure QueryDetails where
  total_number : ℕ
  «stacks» : List (String × ℕ)
deriving DecidableEq

/-- One statement routed through `QueryStats.__call__`: its SQL text, the rendered
call stack (`"".join(traceback.format_stack())`), the measured elapsed time
(`time.monotonic()` difference, an oracle input), and the outcome of
`execute(sql, params, many, context)` (`Except.error` models a raise). -/
structure Stmt (ε ρ : Type) where
  sql : String
  stack_str : String
  elapsed : ℚ
  execute : Except ε ρ

/-- State of the `QueryStats` recorder. -/
structure QueryStats where
  query_durations : List ℚ
  queries : List (String × QueryDetails)
  track_details : Bool
deriving DecidableEq

/-- Embeds `QueryStats.__init__`. -/
def QueryStats.init (track_details : Bool) : QueryStats :=
  { query_durations := [], queries := [], track_details := track_details }

/-- Embeds `QueryStats.__call__`: optionally record the statement/stack detail, invoke the
wrapped execution, and — `finally`, whether it returned or raised — append the
elapsed time to `query_durations`.  The wrapped execution's outcome is returned
unchanged. -/
def QueryStats.call {ε ρ : Type} (qs : QueryStats) (st : Stmt ε ρ) :
    QueryStats × Except ε ρ :=
  let qs1 :=
    if qs.track_details then
      let query_details := (dictGet? qs.queries st.sql).getD ⟨0, []⟩
      let query_details :=
        { query_details with total_number := query_details.total_number + 1 }
      let stack_count := (dictGet? query_details.«stacks» st.stack_str).getD 0
      let query_details :=
        { query_details with
            «stacks» := dictPut query_details.«stacks» st.stack_str (stack_count + 1) }
      { qs with queries := dictPut qs.queries st.sql query_details }
    else qs
  -- the `finally` block runs on both the return and the raise path
  ({ qs1 with query_durations := qs1.query_durations ++ [st.elapsed] }, st.execute)

/-- Route a sequence of statements through the recorder, in order. -/
def QueryStats.run {ε ρ : Type} (qs : QueryStats) : List (Stmt ε ρ) → QueryStats
  | [] => qs
  | st :: rest => ((qs.call st).1).run rest

/-- Embeds `QueryStats.query_count`. -/
def QueryStats.query_count (qs : QueryStats) : ℕ :=
  qs.query_durations.length

/-- Embeds `QueryStats.all_queries`. -/
def QueryStats.all_queries (qs : QueryStats) : List (String × QueryDetails) :=
  qs.queries

/-- Embeds `QueryStats.total_duration`: sum each duration times 1000, round to 3 decimals. -/
def QueryStats.total_duration (qs : QueryStats) : ℚ :=
  pyRound ((qs.query_durations.map (fun d => d * 1000)).sum) 3

/-- The `Metrics` bag, generic in the stored value type (Python stores
heterogeneous objects). -/
structure Metrics (α : Type) where
  entries : List (String × α)
deriving DecidableEq

/-- Embeds `Metrics()` with no initial mapping. -/
def Metrics.empty {α : Type} : Metrics α := ⟨[]⟩

/-- Embeds `Metrics.put`. -/
def Metrics.put {α : Type} (m : Metrics α) (k : String) (v : α) : Metrics α :=
  ⟨dictPut m.entries k v⟩

/-- Embeds `Metrics.get`: raises `KeyError` when the key was never put. -/
def Metrics.get {α : Type} (m : Metrics α) (k : String) : Except String α :=
  lookupBang m.entries k

/-- Embeds `Metrics.get_all`. -/
def Metrics.get_all {α : Type} (m : Metrics α) : List (String × α) :=
  m.entries

/-- Embeds `Metrics.LOGGABLE_METRICS`. -/
def LOGGABLE_METRICS : List String := [QUERY_COUNT, QUERY_TIME, REQUEST_TIME]

instance (priority := 1100) strDecLt (a b : String) : Decidable (a < b) :=
  decidable_of_iff (a.toList < b.toList) String.lt_iff_toList_lt.symm

instance (priority := 1100) strDecLe (a b : String) : Decidable (a ≤ b) :=
  decidable_of_iff (a.toList ≤ b.toList) String.le_iff_toList_le.symm

instance {α : Type} : DecidableRel (fun (a b : String × α) => a.1 ≤ b.1) :=
  fun a b => inferInstanceAs (Decidable (a.1 ≤ b.1))

instance {α : Type} : IsTotal (String × α) (fun a b => a.1 ≤ b.1) :=
  ⟨fun a b => le_total a.1 b.1⟩

instance {α : Type} : IsTrans (String × α) (fun a b => a.1 ≤ b.1) :=
  ⟨fun _ _ _ h₁ h₂ => le_trans h₁ h₂⟩

instance {α : Type} : IsAntisymm (String × α) (fun a b => a.1 < b.1) :=
  ⟨fun _ _ h₁ h₂ => (lt_asymm h₁ h₂).elim⟩

/-- Python `sorted(d.items())`: keys are unique, so the tuple comparison orders by
key; `sorted` is stable, as is `insertionSort`. -/
def sortByKey {α : Type} (l : List (String × α)) : List (String × α) :=
  l.insertionSort (fun a b => a.1 ≤ b.1)

/-- The pairs the `as_log_string` comprehension keeps: sorted items filtered to
the loggable keys. -/
def Metrics.loggableItems {α : Type} (m : Metrics α) : List (String × α) :=
  (sortByKey m.entries).filter (fun kv => decide (kv.1 ∈ LOGGABLE_METRICS))

/-- Embeds `Metrics.as_log_string`, generic in the value rendering (Python `str(v)`). -/
def Metrics.as_log_string {α : Type} (m : Metrics α) (toStr : α → String) : String :=
  String.intercalate ", " (m.loggableItems.map (fun kv => kv.1 ++ "=" ++ toStr kv.2))

/-- The Python values the middleware stores in `Metrics` bags and log dicts. -/
inductive PyVal : Type
  | str : String → PyVal
  | int : ℤ → PyVal
  | float : ℚ → PyVal
  | details : List (String × QueryDetails) → PyVal
  | pyNone : PyVal
deriving DecidableEq

/-- Python `str(v)` for the values above.  The decimal rendering of floats is kept
abstract (the rational's own rendering); no claim depends on float formatting.
The details mapping is only ever stored in the `extra` dict, never rendered. -/
def PyVal.render : PyVal → String
  | PyVal.str s => s
  | PyVal.int n => toString n
  | PyVal.float q => toString q
  | PyVal.details _ => "<query details>"
  | PyVal.pyNone => "None"

/-! Logging severities (Python `logging` numeric levels). -/

def logINFO : ℤ := 20

def logWARNING : ℤ := 30

def logERROR : ℤ := 40

/-- Django settings read by the middleware; `Option.none` models an absent
attribute (so `getattr`'s default applies).  A `PDU_REQUEST_LOG_LEVEL` configured
as Python `None` behaves exactly like `0` (both falsy), so levels are `ℤ`. -/
structure Settings where
  PDU_REQUEST_LOG_LEVEL : Option ℤ := Option.none
  PDU_REQUEST_LOGGING_ACTIVE : Option Bool := Option.none
  DB_INSTRUMENTATION_ENABLED : Option Bool := Option.none
  REQUEST_LOGGING_DETAILED_DB_QUERY_DIAGNOSTICS_ACTIVE : Option Bool := Option.none
  REQUEST_LOGGING_DETAILED_DB_QUERY_DIAGNOSTICS_THRESHOLD : Option ℕ := Option.none
deriving DecidableEq

def defaultSettings : Settings := {}

/-- Embeds `getattr(settings, "PDU_REQUEST_LOG_LEVEL", logging.INFO)`. -/
def Settings.effLevel (s : Settings) : ℤ :=
  s.PDU_REQUEST_LOG_LEVEL.getD logINFO

/-- Embeds `getattr(settings, "PDU_REQUEST_LOGGING_ACTIVE", True)`. -/
def Settings.effActive (s : Settings) : Bool :=
  s.PDU_REQUEST_LOGGING_ACTIVE.getD true

/-- Embeds `getattr(settings, "DB_INSTRUMENTATION_ENABLED", True)`. -/
def Settings.effDbInstr (s : Settings) : Bool :=
  s.DB_INSTRUMENTATION_ENABLED.getD true

/-- Embeds `getattr(settings, "REQUEST_LOGGING_DETAILED_DB_QUERY_DIAGNOSTICS_ACTIVE", True)`. -/
def Settings.effDiagActive (s : Settings) : Bool :=
  s.REQUEST_LOGGING_DETAILED_DB_QUERY_DIAGNOSTICS_ACTIVE.getD true

/-- Embeds `getattr(settings, "REQUEST_LOGGING_DETAILED_DB_QUERY_DIAGNOSTICS_THRESHOLD", 0)`. -/
def Settings.effDiagThreshold (s : Settings) : ℕ :=
  s.REQUEST_LOGGING_DETAILED_DB_QUERY_DIAGNOSTICS_THRESHOLD.getD 0

/-- The attributes `RequestLoggingMiddleware.__init__` sets on the instance. -/
structure RequestLoggingMiddleware where
  detailed_db_query_diagnostics_active : Bool
  detailed_db_query_diagnostics_threshold : ℕ
  level : ℤ
  is_active : Bool
deriving DecidableEq

inductive MiddlewareError : Type
  | middlewareNotUsed
deriving DecidableEq

/-- Embeds `RequestLoggingMiddleware.__init__`: read the configuration once and, when the
active flag is false, raise `MiddlewareNotUsed` so Django removes the middleware
from the chain.  The one-time startup notice to the root logger is a
construction-time side effect elided here. -/
def middlewareInit (s : Settings) : Except MiddlewareError RequestLoggingMiddleware :=
  let self : RequestLoggingMiddleware :=
    { detailed_db_query_diagnostics_active := s.effDiagActive
      detailed_db_query_diagnostics_threshold := s.effDiagThreshold
      level := s.effLevel
      is_active := s.effActive }
  if self.is_active then Except.ok self
  else Except.error MiddlewareError.middlewareNotUsed

/-- Embeds `RequestLoggingMiddleware._get_level`: a truthy configured `_level` is
returned as is; only a falsy one (0, or Python `None`) derives the level from the
status.  Comparing a `None` status with `>=` raises `TypeError` in Python 3. -/
def RequestLoggingMiddleware.get_level (self : RequestLoggingMiddleware)
    (status_code : Option ℤ) : Except String ℤ :=
  if self.level ≠ 0 then Except.ok self.level
  else
    match status_code with
    | Option.none =>
      Except.error "TypeError: '>=' not supported between instances of 'NoneType' and 'int'"
    | some sc =>
      if sc ≥ 500 then Except.ok logERROR
      else if sc ≥ 400 then Except.ok logWARNING
      else Except.ok logINFO

/-- A response object: `status_code = none` models an object exposing no
`status_code` attribute; `content_type` is `response.get("Content-Type")`. -/
structure HttpResponse where
  status_code : Option ℤ
  content_type : Option String
deriving DecidableEq

/-- Embeds `RequestLoggingMiddleware._get_status_code`: return the status, or `None`
after logging a warning when the response exposes none.  The warning's lazily
formatted `%r` argument is elided. -/
def get_status_code (response : HttpResponse) : Option ℤ × List (ℤ × String) :=
  match response.status_code with
  | some sc => (some sc, [])
  | Option.none =>
    (Option.none,
      [(logWARNING, "Request Logger: Could not find status code in response %r")])

/-- A request: its WSGI `environ` dict (string-valued), the optional
`resolver_match` (its `__dict__`), and `request.content_type`. -/
structure PyRequest where
  environ : List (String × String)
  resolver_match : Option (List (String × PyVal))
  content_type : String
deriving DecidableEq

/-- Embeds `resp_env.get(k)`: a missing field turns into Python `None`. -/
def envVal (env : List (String × String)) (k : String) : PyVal :=
  match dictGet? env k with
  | some v => PyVal.str v
  | Option.none => PyVal.pyNone

/-- Embeds `resp_env.get(k, default)`. -/
def envValD (env : List (String × String)) (k d : String) : PyVal :=
  PyVal.str ((dictGet? env k).getD d)

def statusVal : Option ℤ → PyVal
  | some sc => PyVal.int sc
  | Option.none => PyVal.pyNone

/-- Embeds `resp_resolver.get(k)` on the resolver `__dict__`. -/
def resolverVal (r : List (String × PyVal)) (k : String) : PyVal :=
  (dictGet? r k).getD PyVal.pyNone

/-- The block of environ-derived fields `parse_log` adds when `resp_env` is
truthy; note the `"Unknown method"` / `"Unknown URL"` defaults. -/
def envBlock (resp_env : List (String × String)) : List (String × PyVal) :=
  [("http_host", envVal resp_env "HTTP_HOST"),
   ("protocol", envVal resp_env "SERVER_PROTOCOL"),
   ("query_string", envVal resp_env "QUERY_STRING"),
   ("raw_uri", envVal resp_env "RAW_URI"),
   ("remote_address", envVal resp_env "REMOTE_ADDR"),
   ("remote_port", envVal resp_env "REMOTE_PORT"),
   ("request_method", envValD resp_env "REQUEST_METHOD" "Unknown method"),
   ("server_name", envVal resp_env "SERVER_NAME"),
   ("server_port", envVal resp_env "SERVER_PORT"),
   ("server_version", envVal resp_env "SERVER_SOFTWARE"),
   ("user_agent", envVal resp_env "HTTP_USER_AGENT"),
   ("uri", envValD resp_env "PATH_INFO" "Unknown URL")]

/-- The block of resolver-derived fields added when `resolver_match` is truthy;
`resolver_function` is `str(resp_resolver.get("func"))`. -/
def resolverBlock (resp_resolver : List (String × PyVal)) : List (String × PyVal) :=
  [("app_names", resolverVal resp_resolver "app_names"),
   ("namespaces", resolverVal resp_resolver "namespaces"),
   ("resolver_function", PyVal.str (PyVal.render (resolverVal resp_resolver "func"))),
   ("route", resolverVal resp_resolver "route"),
   ("url_name", resolverVal resp_resolver "url_name")]

/-- Embeds `RequestLoggingMiddleware.parse_log`.  The successive `log_dict.update(...)`
calls all add keys disjoint from those already present, which for a Python dict
appends the pairs in order. -/
def parse_log (request : PyRequest) (status_code : Option ℤ) : List (String × PyVal) :=
  let resp_env := request.environ
  let log_dict : List (String × PyVal) :=
    [("content_type", PyVal.str request.content_type),
     ("status", statusVal status_code)]
  let log_dict := log_dict ++ (if resp_env ≠ [] then envBlock resp_env else [])
  let log_dict := log_dict ++
    (match request.resolver_match with
     | some resp_resolver => resolverBlock resp_resolver
     | Option.none => [])
  log_dict

instance : DecidableRel (fun (a b : String × QueryDetails) =>
    b.2.total_number ≤ a.2.total_number) :=
  fun a b => inferInstanceAs (Decidable (b.2.total_number ≤ a.2.total_number))

instance : IsTotal (String × QueryDetails) (fun a b =>
    b.2.total_number ≤ a.2.total_number) :=
  ⟨fun a b => le_total b.2.total_number a.2.total_number⟩

instance : IsTrans (String × QueryDetails) (fun a b =>
    b.2.total_number ≤ a.2.total_number) :=
  ⟨fun _ _ _ h₁ h₂ => le_trans h₂ h₁⟩

instance : DecidableRel (fun (a b : String × ℕ) => b.2 ≤ a.2) :=
  fun a b => inferInstanceAs (Decidable (b.2 ≤ a.2))

instance : IsTotal (String × ℕ) (fun a b => b.2 ≤ a.2) :=
  ⟨fun a b => le_total b.2 a.2⟩

instance : IsTrans (String × ℕ) (fun a b => b.2 ≤ a.2) :=
  ⟨fun _ _ _ h₁ h₂ => le_trans h₂ h₁⟩

/-- Embeds `sorted(all_queries.items(), key=lambda x: x[1].total_number, reverse=True)`:
stable descending sort by total count. -/
def sortQueriesDesc (all_queries : List (String × QueryDetails)) :
    List (String × QueryDetails) :=
  all_queries.insertionSort (fun a b => b.2.total_number ≤ a.2.total_number)

/-- Embeds `sorted(value.stacks.items(), key=lambda x: x[1], reverse=True)`. -/
def QueryDetails.sortedStacks (v : QueryDetails) : List (String × ℕ) :=
  v.«stacks».insertionSort (fun a b => b.2 ≤ a.2)

/-- The header line logged for one statement in the detailed diagnostics. -/
def queryHeader (sql : String) (v : QueryDetails) : String :=
  toString v.total_number ++ " instances of the following query:\n" ++ sql

/-- The two lines logged per call-site, in descending per-call-site count order. -/
def stackLines (v : QueryDetails) : List String :=
  v.sortedStacks.flatMap (fun p =>
    ["This code location accounted for " ++ toString p.2 ++ " queries:", p.1])

/-- The detailed-diagnostics messages of `do_logging`: statements sorted by
descending total count, those exceeding the threshold reported with their
call-site lines. -/
def detailLines (all_queries : List (String × QueryDetails)) (threshold : ℕ) :
    List String :=
  (sortQueriesDesc all_queries).flatMap (fun kv =>
    if threshold < kv.2.total_number then queryHeader kv.1 kv.2 :: stackLines kv.2
    else [])

/-- The statements the detailed diagnostics actually report, in reported order. -/
def detailEntries (all_queries : List (String × QueryDetails)) (threshold : ℕ) :
    List (String × QueryDetails) :=
  (sortQueriesDesc all_queries).filter (fun kv => decide (threshold < kv.2.total_number))

def optStrVal : Option String → PyVal
  | some s => PyVal.str s
  | Option.none => PyVal.pyNone

/-- The `log_dict` of `do_logging`: `parse_log`'s dict updated with all metrics
keys and the response content type. -/
def buildLogDict (request : PyRequest) (status_code : Option ℤ)
    (metrics : Metrics PyVal) (response_content_type : Option String) :
    List (String × PyVal) :=
  dictPut (dictUpdate (parse_log request status_code) metrics.get_all)
    "response_content_type" (optStrVal response_content_type)

/-- Embeds `RequestLoggingMiddleware.do_logging`: emit the compact log line (raising
`KeyError` if `request_method`, `uri` or `status` is absent from the log dict)
and, when detailed diagnostics are active, the per-query diagnostic lines
(raising `KeyError` if the details key was never put).  Returns the list of
(level, message) entries emitted. -/
def do_logging (self : RequestLoggingMiddleware) (request : PyRequest)
    (status_code : Option ℤ) (metrics : Metrics PyVal)
    (response_content_type : Option String) : Except String (List (ℤ × String)) := do
  let log_dict := buildLogDict request status_code metrics response_content_type
  let meth ← lookupBang log_dict "request_method"
  let uri ← lookupBang log_dict "uri"
  let stat ← lookupBang log_dict "status"
  let log_msg := String.intercalate ", "
    ["Received request " ++ meth.render ++ " " ++ uri.render ++ ", status "
       ++ stat.render,
     metrics.as_log_string PyVal.render]
  let level ← self.get_level status_code
  if self.detailed_db_query_diagnostics_active then
    let all_queries ← metrics.get ALL_QUERY_DETAILS
    match all_queries with
    | PyVal.details d =>
      Except.ok ([(level, log_msg), (level, "Detailed DB query info:")] ++
        (if d ≠ [] then detailLines d self.detailed_db_query_diagnostics_threshold
         else []).map (fun m => (level, m)))
    | _ => Except.error "TypeError: details value is not a dict"
  else
    Except.ok [(level, log_msg)]

/-- Per-connection `execute_wrappers` stacks of the connection registry:
connection id, paired with the stack of installed wrapper ids (top first).
Modelled from the spec: Django's `connection.execute_wrapper` context manager
(framework code, outside this repository) pushes the wrapper on entry and pops
it on exit. -/
abbrev ConnState : Type := List (ℕ × List ℕ)

/-- Enter `conn.execute_wrapper(w)`: push `w` on connection `c`'s wrapper stack. -/
def attachWrapper : ConnState → ℕ → ℕ → ConnState
  | [], _, _ => []
  | (c0, ws) :: rest, c, w =>
    if c0 = c then (c0, w :: ws) :: attachWrapper rest c w
    else (c0, ws) :: attachWrapper rest c w

/-- Exit `conn.execute_wrapper(w)`: pop connection `c`'s wrapper stack. -/
def detachWrapper : ConnState → ℕ → ConnState
  | [], _ => []
  | (c0, ws) :: rest, c =>
    if c0 = c then (c0, ws.tail) :: detachWrapper rest c
    else (c0, ws) :: detachWrapper rest c

/-- Modelled from the spec: `contextlib.ExitStack` entering
`conn.execute_wrapper(query_stats)` on each connection in registry order.
`attachOk c = false` means entering the wrapper context on connection `c`
raises.  Returns the state after the successful attaches, the connections
attached in order, and whether every attach succeeded. -/
def enterAll (s : ConnState) (conns : List ℕ) (attachOk : ℕ → Bool) (w : ℕ) :
    ConnState × List ℕ × Bool :=
  match conns with
  | [] => (s, [], true)
  | c :: rest =>
    if attachOk c then
      let r := enterAll (attachWrapper s c w) rest attachOk w
      (r.1, c :: r.2.1, r.2.2)
    else (s, [], false)

/-- Embeds `ExitStack` unwinding: exit the entered contexts in reverse entry order
(on normal exit, on a handler raise, and when a later attach raised). -/
def exitAll (s : ConnState) (entered : List ℕ) : ConnState :=
  match entered with
  | [] => s
  | c :: rest => detachWrapper (exitAll s rest) c

/-- The downstream handler's behaviour for one request: the statements it routes
through any installed execute wrapper, and its outcome (a response, or a raise). -/
structure HandlerRun where
  statements : List (Stmt String Unit)
  result : Except String HttpResponse

/-- Outcome of `_get_response`: the handler's response, or a propagated error. -/
inductive MWOutcome : Type
  | ok : HttpResponse → MWOutcome
  | attachError : MWOutcome
  | handlerError : String → MWOutcome
deriving DecidableEq

/-- Embeds `RequestLoggingMiddleware._get_response`.  `elapsed_ms` is the oracle for the
wall-clock time `(time.monotonic() - start_time) * 1000`.  The fresh recorder is
wrapper id `0`.  Returns the connection state, the metrics bag, and the outcome. -/
def get_response (sett : Settings) (self : RequestLoggingMiddleware)
    (s0 : ConnState) (conns : List ℕ) (attachOk : ℕ → Bool) (run : HandlerRun)
    (elapsed_ms : ℚ) : ConnState × Metrics PyVal × MWOutcome :=
  let metrics : Metrics PyVal := Metrics.empty
  if sett.effDbInstr then
    let query_stats := QueryStats.init self.detailed_db_query_diagnostics_active
    let entered := enterAll s0 conns attachOk 0
    if entered.2.2 then
      -- all attaches succeeded: the handler runs, its statements routed
      -- through the recorder, and the ExitStack unwinds on return or raise
      let query_stats := query_stats.run run.statements
      let s1 := exitAll entered.1 entered.2.1
      match run.result with
      | Except.error e => (s1, metrics, MWOutcome.handlerError e)
      | Except.ok response =>
        let metrics := metrics.put QUERY_COUNT (PyVal.int query_stats.query_count)
        let metrics := metrics.put QUERY_TIME (PyVal.float query_stats.total_duration)
        let metrics := metrics.put ALL_QUERY_DETAILS (PyVal.details query_stats.all_queries)
        let metrics := metrics.put REQUEST_TIME (PyVal.float (pyRound elapsed_ms 2))
        (s1, metrics, MWOutcome.ok response)
    else
      -- the K-th attach raised: the K-1 entered contexts are unwound and the
      -- error propagates
      (exitAll entered.1 entered.2.1, metrics, MWOutcome.attachError)
  else
    match run.result with
    | Except.error e => (s0, metrics, MWOutcome.handlerError e)
    | Except.ok response =>
      (s0, metrics.put REQUEST_TIME (PyVal.float (pyRound elapsed_ms 2)),
        MWOutcome.ok response)

/-- Embeds `RequestLoggingMiddleware.__call__` composed with construction: the final
connection state, and either the response paired with every emitted (level,
message) entry, or the propagated error. -/
def middlewareCall (sett : Settings) (request : PyRequest) (s0 : ConnState)
    (conns : List ℕ) (attachOk : ℕ → Bool) (run : HandlerRun) (elapsed_ms : ℚ) :
    ConnState × Except String (HttpResponse × List (ℤ × String)) :=
  match middlewareInit sett with
  | Except.error _ => (s0, Except.error "MiddlewareNotUsed")
  | Except.ok self =>
    match get_response sett self s0 conns attachOk run elapsed_ms with
    | (s1, _, MWOutcome.attachError) => (s1, Except.error "attach failed")
    | (s1, _, MWOutcome.handlerError e) => (s1, Except.error e)
    | (s1, metrics, MWOutcome.ok response) =>
      let sc := get_status_code response
      match do_logging self request sc.1 metrics response.content_type with
      | Except.error e => (s1, Except.error e)
      | Except.ok msgs => (s1, Except.ok (response, sc.2 ++ msgs))

/-! Concrete fixtures used by witnesses and counterexamples. -/

/-- One successful execution of `SELECT 1` taking 1ms, from the given call site. -/
def exampleStmt (stack : String) : Stmt String Unit :=
  { sql := "SELECT 1", stack_str := stack, elapsed := 1 / 1000, execute := Except.ok () }

/-- Three executions from call-site `A`, then two from call-site `B`. -/
def exampleStmts : List (Stmt String Unit) :=
  [exampleStmt "A", exampleStmt "A", exampleStmt "A", exampleStmt "B", exampleStmt "B"]

def exampleRecorder : QueryStats :=
  (QueryStats.init true).run exampleStmts

/-- A request with a nonempty environ that carries none of the logged fields,
and no resolver match. -/
def minimalRequest : PyRequest :=
  { environ := [("HTTP_HOST", "h")], resolver_match := Option.none,
    content_type := "text/plain" }

/-- A request with an empty (falsy) environ and no resolver match. -/
def noMetaRequest : PyRequest :=
  { environ := [], resolver_match := Option.none, content_type := "text/plain" }

def levelZeroSettings : Settings := { PDU_REQUEST_LOG_LEVEL := some 0 }

def dbOffSettings : Settings := { DB_INSTRUMENTATION_ENABLED := some false }

def inactiveSettings : Settings := { PDU_REQUEST_LOGGING_ACTIVE := some false }

/-- A handler issuing no queries and returning the given response. -/
def okHandler (response : HttpResponse) : HandlerRun :=
  { statements := [], result := Except.ok response }

end ReqStats

namespace ReqStats

/-! Helper lemmas. -/

theorem dictGet?_append {α : Type} (a b : List (String × α)) (k : String) :
    dictGet? (a ++ b) k = (dictGet? a k).or (dictGet? b k) := by
  induction a with
  | nil => simp [dictGet?]
  | cons p rest ih =>
    by_cases h : p.1 = k
    · simp [dictGet?, h, Option.or]
    · simp [dictGet?, h, ih]

theorem dictGet?_dictPut {α : Type} (d : List (String × α)) (k : String) (v : α)
    (k' : String) :
    dictGet? (dictPut d k v) k' = if k = k' then some v else dictGet? d k' := by
  induction d with
  | nil => simp [dictPut, dictGet?]
  | cons p rest ih =>
    obtain ⟨k0, v0⟩ := p
    by_cases h : k0 = k
    · subst h
      by_cases h' : k0 = k' <;> simp [dictPut, dictGet?, h']
    · by_cases h' : k0 = k'
      · subst h'
        have hne : ¬ k = k0 := fun he => h he.symm
        simp [dictPut, dictGet?, h, hne]
      · simp [dictPut, dictGet?, h, h', ih]

theorem call_query_durations {ε ρ : Type} (qs : QueryStats) (st : Stmt ε ρ) :
    ((qs.call st).1).query_durations = qs.query_durations ++ [st.elapsed] := by
  unfold QueryStats.call
  by_cases h : qs.track_details <;> simp [h]

theorem run_query_durations {ε ρ : Type} (stmts : List (Stmt ε ρ)) (qs : QueryStats) :
    (qs.run stmts).query_durations
      = qs.query_durations ++ stmts.map (fun st => st.elapsed) := by
  induction stmts generalizing qs with
  | nil => simp [QueryStats.run]
  | cons st rest ih =>
    simp [QueryStats.run, ih, call_query_durations]

theorem detachWrapper_attachWrapper (s : ConnState) (c w : ℕ) :
    detachWrapper (attachWrapper s c w) c = s := by
  induction s with
  | nil => rfl
  | cons p rest ih =>
    obtain ⟨c0, ws⟩ := p
    by_cases h : c0 = c <;> simp [attachWrapper, detachWrapper, h, ih]

theorem exitAll_enterAll (conns : List ℕ) (s : ConnState) (attachOk : ℕ → Bool)
    (w : ℕ) :
    exitAll (enterAll s conns attachOk w).1 (enterAll s conns attachOk w).2.1 = s := by
  induction conns generalizing s with
  | nil => rfl
  | cons c rest ih =>
    by_cases h : attachOk c
    · simp only [enterAll, h, if_true, exitAll]
      rw [ih (attachWrapper s c w)]
      exact detachWrapper_attachWrapper s c w
    · simp [enterAll, h, exitAll]

theorem get_response_fst (sett : Settings) (self : RequestLoggingMiddleware)
    (s0 : ConnState) (conns : List ℕ) (attachOk : ℕ → Bool) (run : HandlerRun)
    (elapsed_ms : ℚ) :
    (get_response sett self s0 conns attachOk run elapsed_ms).1 = s0 := by
  unfold get_response
  by_cases h : sett.effDbInstr
  · simp only [h, if_true]
    by_cases h2 : (enterAll s0 conns attachOk 0).2.2
    · simp only [h2, if_true]
      cases run.result <;> simp [exitAll_enterAll]
    · simp only [Bool.not_eq_true] at h2
      simp [h2, exitAll_enterAll]
  · simp only [Bool.not_eq_true] at h
    simp only [h, Bool.false_eq_true, if_false]
    cases run.result <;> rfl

/-! Claim theorems. -/

/-- C1: on every exit path of `_get_response` — normal handler return, handler
raise, or the K-th attach failing after K-1 successes — every connection that
was attached is detached again, so the connection state (and in particular the
set of installed interceptors) is exactly what it was before the request. -/
theorem c1_teardown_on_all_exit_paths (sett : Settings)
    (self : RequestLoggingMiddleware) (request : PyRequest) (s0 : ConnState)
    (conns : List ℕ) (attachOk : ℕ → Bool) (run : HandlerRun) (elapsed_ms : ℚ) :
    (get_response sett self s0 conns attachOk run elapsed_ms).1 = s0
    ∧ (middlewareCall sett request s0 conns attachOk run elapsed_ms).1 = s0 := by
  refine ⟨get_response_fst sett self s0 conns attachOk run elapsed_ms, ?_⟩
  unfold middlewareCall
  cases hinit : middlewareInit sett with
  | error e => rfl
  | ok self' =>
    have h1 := get_response_fst sett self' s0 conns attachOk run elapsed_ms
    rcases hr : get_response sett self' s0 conns attachOk run elapsed_ms with ⟨s1, m, out⟩
    rw [hr] at h1
    cases out with
    | attachError => simpa [hr] using h1
    | handlerError e => simpa [hr] using h1
    | ok resp =>
      cases hdl : do_logging self' request (get_status_code resp).1 m
          resp.content_type <;> simpa [hr, hdl] using h1

/-- C2: after `N` statements are routed through a fresh recorder, its query
count is `N` and its total duration is the sum of the individually measured
elapsed times, multiplied by 1000 and rounded (as Python `round`) to 3 decimal
places. -/
theorem c2_query_count_and_total_duration (b : Bool) (stmts : List (Stmt String Unit)) :
    ((QueryStats.init b).run stmts).query_count = stmts.length
    ∧ ((QueryStats.init b).run stmts).total_duration
        = pyRound ((stmts.map (fun st => st.elapsed)).sum * 1000) 3 := by
  have hd := run_query_durations stmts (QueryStats.init b)
  have hsum : ∀ l : List ℚ, (l.map (fun d => d * 1000)).sum = l.sum * 1000 := by
    intro l
    induction l with
    | nil => simp
    | cons x xs ih => simp [ih, add_mul]
  constructor
  · simp only [QueryStats.query_count]
    rw [hd]
    simp [QueryStats.init]
  · simp only [QueryStats.total_duration]
    rw [hd]
    simp only [QueryStats.init, List.nil_append]
    rw [hsum]

/-- C3 (code evaluated at the failing input): with default settings,
`_level = logging.INFO = 20` is truthy, so `_get_level` returns INFO for every
status — including 404 and 500 — and the derive-from-status branch (which would
give WARNING/ERROR) is only reachable when the configured level is falsy. -/
theorem c3_default_level_never_derives :
    defaultSettings.effLevel = logINFO
    ∧ middlewareInit defaultSettings = Except.ok
        { detailed_db_query_diagnostics_active := true,
          detailed_db_query_diagnostics_threshold := 0,
          level := logINFO, is_active := true }
    ∧ RequestLoggingMiddleware.get_level
        { detailed_db_query_diagnostics_active := true,
          detailed_db_query_diagnostics_threshold := 0,
          level := logINFO, is_active := true } (some 200) = Except.ok logINFO
    ∧ RequestLoggingMiddleware.get_level
        { detailed_db_query_diagnostics_active := true,
          detailed_db_query_diagnostics_threshold := 0,
          level := logINFO, is_active := true } (some 404) = Except.ok logINFO
    ∧ RequestLoggingMiddleware.get_level
        { detailed_db_query_diagnostics_active := true,
          detailed_db_query_diagnostics_threshold := 0,
          level := logINFO, is_active := true } (some 500) = Except.ok logINFO
    ∧ RequestLoggingMiddleware.get_level
        { detailed_db_query_diagnostics_active := true,
          detailed_db_query_diagnostics_threshold := 0,
          level := 0, is_active := true } (some 404) = Except.ok logWARNING
    ∧ RequestLoggingMiddleware.get_level
        { detailed_db_query_diagnostics_active := true,
          detailed_db_query_diagnostics_threshold := 0,
          level := 0, is_active := true } (some 500) = Except.ok logERROR := by
  decide

/-- C4: `QueryStats.__call__` appends exactly one elapsed-time entry whether the
wrapped execution returned or raised (the `finally` block), and returns the
wrapped execution's outcome — in particular a raised error — unchanged. -/
theorem c4_intercept_records_and_propagates {ε ρ : Type} (qs : QueryStats)
    (st : Stmt ε ρ) :
    ((qs.call st).1).query_durations = qs.query_durations ++ [st.elapsed]
    ∧ ((qs.call st).1).query_count = qs.query_count + 1
    ∧ (qs.call st).2 = st.execute := by
  refine ⟨call_query_durations qs st, ?_, rfl⟩
  simp [QueryStats.query_count, call_query_durations]

/-- C9: construction raises `MiddlewareNotUsed` — the dedicated skip-construction
signal Django's composition layer observes — exactly when the configured active
flag is false; otherwise construction completes normally. -/
theorem c9_inactive_signals_not_used (sett : Settings) :
    (middlewareInit sett = Except.error MiddlewareError.middlewareNotUsed
      ↔ sett.effActive = false)
    ∧ (sett.effActive = true →
        middlewareInit sett = Except.ok
          { detailed_db_query_diagnostics_active := sett.effDiagActive,
            detailed_db_query_diagnostics_threshold := sett.effDiagThreshold,
            level := sett.effLevel, is_active := true }) := by
  unfold middlewareInit
  by_cases h : sett.effActive = true
  · simp [h]
  · simp only [Bool.not_eq_true] at h
    simp [h]

/-- Witness for C9 at a concrete inactive configuration. -/
theorem c9_witness :
    middlewareInit inactiveSettings = Except.error MiddlewareError.middlewareNotUsed :=
  (c9_inactive_signals_not_used inactiveSettings).1.mpr (by decide)

theorem sortByKey_perm {α : Type} (l : List (String × α)) : (sortByKey l).Perm l :=
  List.perm_insertionSort _ l

theorem sortByKey_pairwise_lt {α : Type} (l : List (String × α))
    (hnd : (l.map Prod.fst).Nodup) :
    (sortByKey l).Pairwise (fun a b => a.1 < b.1) := by
  have hle : (sortByKey l).Pairwise (fun a b => a.1 ≤ b.1) :=
    List.sorted_insertionSort _ l
  have hne : (sortByKey l).Pairwise (fun a b => a.1 ≠ b.1) :=
    ((sortByKey_perm l).pairwise_iff (fun h => Ne.symm h)).mpr
      (List.pairwise_map.mp hnd)
  exact (hle.and hne).imp (fun h => lt_of_le_of_ne h.1 h.2)

theorem loggableItems_pairwise_lt {α : Type} (m : Metrics α)
    (hnd : (m.entries.map Prod.fst).Nodup) :
    m.loggableItems.Pairwise (fun a b => a.1 < b.1) :=
  (sortByKey_pairwise_lt m.entries hnd).filter _

theorem loggableItems_eq_of_perm {α : Type} (m₁ m₂ : Metrics α)
    (hnd : (m₁.entries.map Prod.fst).Nodup) (hperm : m₁.entries.Perm m₂.entries) :
    m₁.loggableItems = m₂.loggableItems := by
  have hnd₂ : (m₂.entries.map Prod.fst).Nodup :=
    ((hperm.map Prod.fst).nodup_iff).mp hnd
  have hp : m₁.loggableItems.Perm m₂.loggableItems :=
    ((sortByKey_perm m₁.entries).trans
      (hperm.trans (sortByKey_perm m₂.entries).symm)).filter _
  exact List.eq_of_perm_of_sorted hp (loggableItems_pairwise_lt m₁ hnd)
    (loggableItems_pairwise_lt m₂ hnd₂)

/-- C5: `as_log_string` renders the loggable items as `key=value` pairs joined by
`", "`; those items are exactly the bag entries whose key is loggable (so the
diagnostics-detail key is excluded), their keys are in strictly ascending order,
and two bags holding the same key-value pairs — whatever the insertion order —
render to the same string. -/
theorem c5_as_log_string_sorted_loggable_deterministic {α : Type}
    (toStr : α → String) (m₁ m₂ : Metrics α)
    (hnd : (m₁.entries.map Prod.fst).Nodup) (hperm : m₁.entries.Perm m₂.entries) :
    m₁.as_log_string toStr
      = String.intercalate ", "
          (m₁.loggableItems.map (fun kv => kv.1 ++ "=" ++ toStr kv.2))
    ∧ (∀ kv : String × α,
        kv ∈ m₁.loggableItems ↔ (kv ∈ m₁.entries ∧ kv.1 ∈ LOGGABLE_METRICS))
    ∧ ALL_QUERY_DETAILS ∉ m₁.loggableItems.map Prod.fst
    ∧ (m₁.loggableItems.map Prod.fst).Sorted (fun a b => a < b)
    ∧ m₁.as_log_string toStr = m₂.as_log_string toStr := by
  have hmem : ∀ kv : String × α,
      kv ∈ m₁.loggableItems ↔ (kv ∈ m₁.entries ∧ kv.1 ∈ LOGGABLE_METRICS) := by
    intro kv
    simp only [Metrics.loggableItems, List.mem_filter, decide_eq_true_eq]
    rw [(sortByKey_perm m₁.entries).mem_iff]
  refine ⟨rfl, hmem, ?_, ?_, ?_⟩
  · intro hin
    obtain ⟨kv, hkv, hfst⟩ := List.mem_map.mp hin
    have hlog := ((hmem kv).mp hkv).2
    rw [hfst] at hlog
    exact absurd hlog (by decide)
  · exact List.pairwise_map.mpr (loggableItems_pairwise_lt m₁ hnd)
  · simp only [Metrics.as_log_string, loggableItems_eq_of_perm m₁ m₂ hnd hperm]

/-- Witness for C5: two bags with the same pairs inserted in opposite orders
render identically. -/
theorem c5_witness :
    (Metrics.mk [(QUERY_COUNT, (1 : ℕ)), (REQUEST_TIME, 2)]).as_log_string toString
      = (Metrics.mk [(REQUEST_TIME, (2 : ℕ)), (QUERY_COUNT, 1)]).as_log_string toString :=
  (c5_as_log_string_sorted_loggable_deterministic toString
      (Metrics.mk [(QUERY_COUNT, 1), (REQUEST_TIME, 2)])
      (Metrics.mk [(REQUEST_TIME, 2), (QUERY_COUNT, 1)])
      (by decide)
      (List.Perm.swap (REQUEST_TIME, 2) (QUERY_COUNT, 1) [])).2.2.2.2

theorem sortQueriesDesc_perm (q : List (String × QueryDetails)) :
    (sortQueriesDesc q).Perm q :=
  List.perm_insertionSort _ q

theorem flatMap_ite_eq_filter_flatMap {β : Type} (l : List β) (p : β → Prop)
    [DecidablePred p] (f : β → List String) :
    l.flatMap (fun x => if p x then f x else [])
      = (l.filter (fun x => decide (p x))).flatMap f := by
  induction l with
  | nil => rfl
  | cons x xs ih =>
    by_cases h : p x <;> simp [h, ih]

/-- C6: the detailed diagnostics report exactly the statements whose total count
exceeds the threshold, in descending order of total count; within a statement
the call-sites are in descending per-call-site count order; and on the concrete
example — 3 executions of `SELECT 1` from call-site `A`, 2 from `B`, threshold
0 — the output reports `SELECT 1` with total 5, then `A` (3) before `B` (2). -/
theorem c6_detailed_diagnostics_order (q : List (String × QueryDetails)) (t : ℕ) :
    (∀ kv : String × QueryDetails,
        kv ∈ detailEntries q t ↔ (kv ∈ q ∧ t < kv.2.total_number))
    ∧ ((detailEntries q t).map (fun kv => kv.2.total_number)).Sorted
        (fun a b => b ≤ a)
    ∧ (∀ v : QueryDetails, (v.sortedStacks.map Prod.snd).Sorted (fun a b => b ≤ a))
    ∧ detailLines q t
        = (detailEntries q t).flatMap (fun kv => queryHeader kv.1 kv.2 :: stackLines kv.2)
    ∧ exampleRecorder.all_queries
        = [("SELECT 1", QueryDetails.mk 5 [("A", 3), ("B", 2)])]
    ∧ detailLines exampleRecorder.all_queries 0
        = ["5 instances of the following query:\nSELECT 1",
           "This code location accounted for 3 queries:", "A",
           "This code location accounted for 2 queries:", "B"] := by
  refine ⟨?_, ?_, ?_, ?_, by decide, by decide⟩
  · intro kv
    simp only [detailEntries, List.mem_filter, decide_eq_true_eq]
    rw [(sortQueriesDesc_perm q).mem_iff]
  · exact List.pairwise_map.mpr
      ((List.sorted_insertionSort _ q).filter _)
  · intro v
    exact List.pairwise_map.mpr (List.sorted_insertionSort _ v.«stacks»)
  · exact flatMap_ite_eq_filter_flatMap (sortQueriesDesc q) _ _

/-- Witness for C6 at the concrete example: `SELECT 1` (total 5) is reported
under threshold 0. -/
theorem c6_witness :
    ("SELECT 1", QueryDetails.mk 5 [("A", 3), ("B", 2)])
      ∈ detailEntries exampleRecorder.all_queries 0 :=
  ((c6_detailed_diagnostics_order exampleRecorder.all_queries 0).1
      ("SELECT 1", QueryDetails.mk 5 [("A", 3), ("B", 2)])).mpr
    ⟨by decide, by decide⟩

theorem middlewareInit_ok (sett : Settings) (h : sett.effActive = true) :
    middlewareInit sett = Except.ok
      { detailed_db_query_diagnostics_active := sett.effDiagActive,
        detailed_db_query_diagnostics_threshold := sett.effDiagThreshold,
        level := sett.effLevel, is_active := true } := by
  unfold middlewareInit
  simp [h]

theorem parse_log_status (req : PyRequest) (sc : Option ℤ) :
    dictGet? (parse_log req sc) "status" = some (statusVal sc) := by
  simp only [parse_log, dictGet?_append]
  rfl

theorem parse_log_request_method (req : PyRequest) (sc : Option ℤ)
    (henv : req.environ ≠ []) :
    dictGet? (parse_log req sc) "request_method"
      = some (envValD req.environ "REQUEST_METHOD" "Unknown method") := by
  simp only [parse_log]
  rw [if_pos henv]
  simp only [dictGet?_append]
  rfl

theorem parse_log_uri (req : PyRequest) (sc : Option ℤ) (henv : req.environ ≠ []) :
    dictGet? (parse_log req sc) "uri"
      = some (envValD req.environ "PATH_INFO" "Unknown URL") := by
  simp only [parse_log]
  rw [if_pos henv]
  simp only [dictGet?_append]
  rfl

theorem get_level_truthy (self : RequestLoggingMiddleware) (sc : Option ℤ)
    (h : self.level ≠ 0) :
    self.get_level sc = Except.ok self.level := by
  unfold RequestLoggingMiddleware.get_level
  rw [if_pos h]

theorem bind_ok_eq {ε α β : Type} (a : α) (f : α → Except ε β) :
    Bind.bind (Except.ok a : Except ε α) f = f a := rfl

theorem bind_error_eq {ε α β : Type} (e : ε) (f : α → Except ε β) :
    Bind.bind (Except.error e : Except ε α) f = (Except.error e : Except ε β) := rfl

theorem buildLogDict_get_parse (req : PyRequest) (sc : Option ℤ) (v : PyVal)
    (ct : Option String) (k : String) (h1 : REQUEST_TIME ≠ k)
    (h2 : "response_content_type" ≠ k) :
    dictGet? (buildLogDict req sc (Metrics.mk [(REQUEST_TIME, v)]) ct) k
      = dictGet? (parse_log req sc) k := by
  simp only [buildLogDict, Metrics.get_all, dictUpdate, dictGet?_dictPut]
  rw [if_neg h2, if_neg h1]

/-- C7 counterexample: a request whose environ dict is empty (falsy), with the
default configuration and a handler returning 200, makes `do_logging` raise
`KeyError` at `log_dict['request_method']` instead of completing the request. -/
theorem c7_counterexample_empty_environ :
    (middlewareCall defaultSettings noMetaRequest [(0, [])] [0] (fun _ => true)
        (okHandler (HttpResponse.mk (some 200) (some "application/json"))) 5).2
      = Except.error "KeyError: request_method" := by decide

/-- C7 (amended): when the environ mapping is present (nonempty), each missing
metadata field independently degrades to its sentinel — `"Unknown method"` for
the method, `"Unknown URL"` for the path, the status value as stored — and, as
the closed conjunct shows, a request carrying none of the logged environ fields
and no resolver match still completes logging and returns the response.  (With
an empty environ the request fails instead; see the counterexample.) -/
theorem c7_amended_fieldwise_defaults (req : PyRequest) (sc : Option ℤ)
    (henv : req.environ ≠ []) :
    lookupBang (parse_log req sc) "request_method"
        = Except.ok (envValD req.environ "REQUEST_METHOD" "Unknown method")
    ∧ lookupBang (parse_log req sc) "uri"
        = Except.ok (envValD req.environ "PATH_INFO" "Unknown URL")
    ∧ lookupBang (parse_log req sc) "status" = Except.ok (statusVal sc)
    ∧ envValD minimalRequest.environ "REQUEST_METHOD" "Unknown method"
        = PyVal.str "Unknown method"
    ∧ envValD minimalRequest.environ "PATH_INFO" "Unknown URL"
        = PyVal.str "Unknown URL"
    ∧ (∃ msgs : List (ℤ × String),
        (middlewareCall defaultSettings minimalRequest [(0, [])] [0] (fun _ => true)
            (okHandler (HttpResponse.mk (some 200) Option.none)) 5).2
          = Except.ok (HttpResponse.mk (some 200) Option.none, msgs)) := by
  refine ⟨?_, ?_, ?_, rfl, rfl, ⟨_, rfl⟩⟩
  · unfold lookupBang
    rw [parse_log_request_method req sc henv]
  · unfold lookupBang
    rw [parse_log_uri req sc henv]
  · unfold lookupBang
    rw [parse_log_status req sc]

/-- Witness for C7 at a concrete request whose environ lacks the method field. -/
theorem c7_witness :
    lookupBang (parse_log minimalRequest (some 200)) "request_method"
      = Except.ok (envValD minimalRequest.environ "REQUEST_METHOD" "Unknown method") :=
  (c7_amended_fieldwise_defaults minimalRequest (some 200) (by decide)).1

/-- C8 counterexample: with a falsy configured level (`PDU_REQUEST_LOG_LEVEL = 0`,
the only configuration in which `_get_level` derives from the status) a response
exposing no status code makes `_get_level` compare `None >= 500` and raise
`TypeError`, so the middleware fails instead of recovering. -/
theorem c8_counterexample_falsy_level :
    (middlewareCall levelZeroSettings minimalRequest [(0, [])] [0] (fun _ => true)
        (okHandler (HttpResponse.mk Option.none Option.none)) 5).2
      = Except.error
          "TypeError: '>=' not supported between instances of 'NoneType' and 'int'" := by
  decide

/-- C8 (amended): a response exposing no status code is recovered whenever the
configured level is truthy (in particular under the default INFO): the status
is read as `None` after a logged warning, a truthy level never inspects the
status, and — as the closed pipeline conjunct shows — logging completes with the
`None` status sentinel in the message and the response is returned. -/
theorem c8_amended_truthy_level_recovers :
    (∀ response : HttpResponse, response.status_code = Option.none →
        get_status_code response
          = (Option.none,
             [(logWARNING, "Request Logger: Could not find status code in response %r")]))
    ∧ (∀ self : RequestLoggingMiddleware, self.level ≠ 0 →
        self.get_level Option.none = Except.ok self.level)
    ∧ (statusVal Option.none).render = "None"
    ∧ (∀ ct : String, ∃ msgs : List (ℤ × String),
        (middlewareCall defaultSettings minimalRequest [(0, [])] [0] (fun _ => true)
            (okHandler (HttpResponse.mk Option.none (some ct))) 5).2
          = Except.ok (HttpResponse.mk Option.none (some ct), msgs)
        ∧ (logWARNING, "Request Logger: Could not find status code in response %r")
            ∈ msgs) := by
  refine ⟨?_, ?_, rfl, ?_⟩
  · intro response h
    unfold get_status_code
    rw [h]
  · intro self h
    exact get_level_truthy self Option.none h
  · intro ct
    exact ⟨_, rfl, List.mem_cons_self _ _⟩

/-- Witness for C8: the default INFO level is truthy, so a `None` status is
never compared. -/
theorem c8_witness :
    RequestLoggingMiddleware.get_level
        { detailed_db_query_diagnostics_active := true,
          detailed_db_query_diagnostics_threshold := 0,
          level := logINFO, is_active := true } Option.none = Except.ok logINFO :=
  c8_amended_truthy_level_recovers.2.1
    { detailed_db_query_diagnostics_active := true,
      detailed_db_query_diagnostics_threshold := 0,
      level := logINFO, is_active := true } (by decide)

/-- C10: with DB instrumentation disabled and detailed diagnostics enabled, the
details key is never put into the metrics bag, so the diagnostics phase of
`do_logging` looks it up and raises `KeyError: db_query_details`, and the
middleware fails instead of returning the response.  (The hypotheses pin the
request to one that gets past the compact log line: nonempty environ, a handler
that returns, and a truthy level.) -/
theorem c10_db_off_diagnostics_keyerror (sett : Settings) (req : PyRequest)
    (s0 : ConnState) (conns : List ℕ) (attachOk : ℕ → Bool)
    (stmts : List (Stmt String Unit)) (resp : HttpResponse) (elapsed_ms : ℚ)
    (hdb : sett.effDbInstr = false)
    (hdiag : sett.effDiagActive = true)
    (hactive : sett.effActive = true)
    (hlvl : sett.effLevel ≠ 0)
    (henv : req.environ ≠ []) :
    (middlewareCall sett req s0 conns attachOk
        (HandlerRun.mk stmts (Except.ok resp)) elapsed_ms).2
      = Except.error ("KeyError: " ++ ALL_QUERY_DETAILS) := by
  have hinit : middlewareInit sett = Except.ok
      { detailed_db_query_diagnostics_active := true,
        detailed_db_query_diagnostics_threshold := sett.effDiagThreshold,
        level := sett.effLevel, is_active := true } := by
    rw [middlewareInit_ok sett hactive, hdiag]
  have hgr : get_response sett
      { detailed_db_query_diagnostics_active := true,
        detailed_db_query_diagnostics_threshold := sett.effDiagThreshold,
        level := sett.effLevel, is_active := true }
      s0 conns attachOk (HandlerRun.mk stmts (Except.ok resp)) elapsed_ms
      = (s0, Metrics.mk [(REQUEST_TIME, PyVal.float (pyRound elapsed_ms 2))],
          MWOutcome.ok resp) := by
    unfold get_response
    simp [hdb, Metrics.empty, Metrics.put, dictPut]
  have hrm : lookupBang (buildLogDict req (get_status_code resp).1
      (Metrics.mk [(REQUEST_TIME, PyVal.float (pyRound elapsed_ms 2))])
      resp.content_type) "request_method"
      = Except.ok (envValD req.environ "REQUEST_METHOD" "Unknown method") := by
    unfold lookupBang
    rw [buildLogDict_get_parse _ _ _ _ _ (by decide) (by decide),
      parse_log_request_method req _ henv]
  have huri : lookupBang (buildLogDict req (get_status_code resp).1
      (Metrics.mk [(REQUEST_TIME, PyVal.float (pyRound elapsed_ms 2))])
      resp.content_type) "uri"
      = Except.ok (envValD req.environ "PATH_INFO" "Unknown URL") := by
    unfold lookupBang
    rw [buildLogDict_get_parse _ _ _ _ _ (by decide) (by decide),
      parse_log_uri req _ henv]
  have hst : lookupBang (buildLogDict req (get_status_code resp).1
      (Metrics.mk [(REQUEST_TIME, PyVal.float (pyRound elapsed_ms 2))])
      resp.content_type) "status"
      = Except.ok (statusVal (get_status_code resp).1) := by
    unfold lookupBang
    rw [buildLogDict_get_parse _ _ _ _ _ (by decide) (by decide),
      parse_log_status req _]
  have hget : (Metrics.mk [(REQUEST_TIME, PyVal.float (pyRound elapsed_ms 2))]
      : Metrics PyVal).get ALL_QUERY_DETAILS
      = Except.error ("KeyError: " ++ ALL_QUERY_DETAILS) := rfl
  have hlevel : RequestLoggingMiddleware.get_level
      { detailed_db_query_diagnostics_active := true,
        detailed_db_query_diagnostics_threshold := sett.effDiagThreshold,
        level := sett.effLevel, is_active := true } (get_status_code resp).1
      = Except.ok sett.effLevel :=
    get_level_truthy _ _ hlvl
  have hdl : do_logging
      { detailed_db_query_diagnostics_active := true,
        detailed_db_query_diagnostics_threshold := sett.effDiagThreshold,
        level := sett.effLevel, is_active := true }
      req (get_status_code resp).1
      (Metrics.mk [(REQUEST_TIME, PyVal.float (pyRound elapsed_ms 2))])
      resp.content_type
      = Except.error ("KeyError: " ++ ALL_QUERY_DETAILS) := by
    simp only [do_logging, hrm, huri, hst, bind_ok_eq, hlevel, if_true,
      hget, bind_error_eq]
  simp only [middlewareCall, hinit, hgr, hdl]

/-- Witness for C10 at a concrete configuration with DB instrumentation off. -/
theorem c10_witness :
    (middlewareCall dbOffSettings minimalRequest [(0, [])] [0] (fun _ => true)
        (HandlerRun.mk [] (Except.ok (HttpResponse.mk (some 200) Option.none))) 5).2
      = Except.error ("KeyError: " ++ ALL_QUERY_DETAILS) :=
  c10_db_off_diagnostics_keyerror dbOffSettings minimalRequest [(0, [])] [0]
    (fun _ => true) [] (HttpResponse.mk (some 200) Option.none) 5
    (by decide) (by decide) (by decide) (by decide) (by decide)

end ReqStats
